import Mathlib

/-! fs_driver: the module load / unload lifecycle

A shallow embedding of `src/kernel/fs_driver/fs_driver.c`.  The translation
unit consists of four `MODULE_*` metadata declarations and the two lifecycle
entry points `init_module` and `cleanup_module`, each of which performs one
`printk` and returns.

The kernel log is an explicit list of records threaded through the entry
points; `printk`, `KERN_INFO` and the module loader belong to the host kernel
and are modelled here only as far as the two calls in the source need them.
-/

namespace FsDriver

/-! ## The host logging sink -/

/-- The eight kernel log severities, in the order of their numeric codes 0..7. -/
inductive Severity where
  | emerg | alert | crit | err | warning | notice | info | debug
  deriving DecidableEq, Repr

/-- One record of the kernel log: a severity and the text that was emitted. -/
structure LogRecord where
  level : Severity
  text : String
  deriving DecidableEq, Repr

/-- The `.modinfo` strings a module carries (`MODULE_LICENSE`, `MODULE_AUTHOR`,
`MODULE_DESCRIPTION`, `MODULE_VERSION`). -/
structure Modinfo where
  license : String
  author : String
  description : String
  version : String
  deriving DecidableEq, Repr

/-- The state the entry points run in: the kernel log (oldest record first) and
the metadata strings of the module image. -/
structure Kernel where
  log : List LogRecord
  modinfo : Modinfo
  deriving DecidableEq, Repr

/-- Modelled from the spec: the header constant `KERN_SOH` of `<linux/kernel.h>`,
the ASCII start-of-header byte that introduces a severity prefix. -/
def KERN_SOH : String := "\x01"

/-- Modelled from the spec: the header macro `KERN_INFO` of `<linux/kernel.h>`
(the "informational" severity), which is `KERN_SOH "6"`. -/
def KERN_INFO : String := KERN_SOH ++ "6"

/-- Modelled from the spec: the severity the host uses for a message that carries
no severity prefix (the default message log level, `KERN_WARNING`). -/
def default_message_loglevel : Severity := Severity.warning

/-- Modelled from the spec: the severity named by the digit of a severity prefix. -/
def severityOfDigit : Char → Option Severity
  | '0' => some Severity.emerg
  | '1' => some Severity.alert
  | '2' => some Severity.crit
  | '3' => some Severity.err
  | '4' => some Severity.warning
  | '5' => some Severity.notice
  | '6' => some Severity.info
  | '7' => some Severity.debug
  | _ => none

/-- Modelled from the spec: splitting a message into its severity and its body.
A message that starts with the start-of-header byte followed by a severity digit
has that severity and loses the two prefix bytes; any other message is taken
whole at the default severity. -/
def printk_parse : List Char → Severity × List Char
  | [] => (default_message_loglevel, [])
  | [c] => (default_message_loglevel, [c])
  | c :: d :: rest =>
    if c = '\x01' then
      match severityOfDigit d with
      | some lvl => (lvl, rest)
      | none => (default_message_loglevel, c :: d :: rest)
    else (default_message_loglevel, c :: d :: rest)

/-- Modelled from the spec: expansion of a format body against the variadic
arguments of the call (already rendered as text).  `%%` yields one percent sign;
any other conversion `%c` is replaced by the next argument, or by nothing when
the call supplied none; every other character is copied unchanged. -/
def vformat : List Char → List String → List Char
  | [], _ => []
  | [c], _ => [c]
  | c :: d :: rest, args =>
    if c = '%' then
      if d = '%' then '%' :: vformat rest args
      else
        match args with
        | [] => vformat rest []
        | a :: more => a.data ++ vformat rest more
    else c :: vformat (d :: rest) args

/-- Modelled from the spec: the host logging sink `printk`.  The severity prefix
is parsed off the format string, the remainder is expanded against the arguments,
and exactly one record is appended to the kernel log.  The result is the number
of characters emitted, as the C function returns. -/
def printk (fmt : String) (args : List String) (k : Kernel) : Int × Kernel :=
  let parsed := printk_parse fmt.data
  let body := vformat parsed.2 args
  ((body.length : Int), { k with log := k.log ++ [{ level := parsed.1, text := String.mk body }] })

/-! ## The translation unit `fs_driver.c` -/

/-- The string of `MODULE_LICENSE("GPL")`. -/
def MODULE_LICENSE : String := "GPL"

/-- The string of `MODULE_AUTHOR("Bharath Reddy")`. -/
def MODULE_AUTHOR : String := "Bharath Reddy"

/-- The string of `MODULE_DESCRIPTION("A simple hello world module")`. -/
def MODULE_DESCRIPTION : String := "A simple hello world module"

/-- The string of `MODULE_VERSION("0.01")`. -/
def MODULE_VERSION : String := "0.01"

/-- The metadata section of the compiled module: the four declarations above. -/
def fs_driver_modinfo : Modinfo :=
  { license := MODULE_LICENSE
    author := MODULE_AUTHOR
    description := MODULE_DESCRIPTION
    version := MODULE_VERSION }

/-- The entry point `int init_module(void)`:
`printk(KERN_INFO "Hello world 1.\n"); return 0;`.  The value of `printk` is
discarded, as in the source. -/
def init_module (k : Kernel) : Int × Kernel :=
  let r := printk (KERN_INFO ++ "Hello world 1.\n") [] k
  (0, r.2)

/-- The entry point `void cleanup_module(void)`:
`printk(KERN_INFO "Goodbye world 1.\n");`. -/
def cleanup_module (k : Kernel) : Unit × Kernel :=
  let r := printk (KERN_INFO ++ "Goodbye world 1.\n") [] k
  ((), r.2)

/-! ## Sequences of entry-point calls -/

/-- The two operations of the module. -/
inductive Op where
  | load | unload
  deriving DecidableEq, Repr

/-- The effect of one operation on the kernel state (results dropped). -/
def applyOp (o : Op) (k : Kernel) : Kernel :=
  match o with
  | Op.load => (init_module k).2
  | Op.unload => (cleanup_module k).2

/-- The effect of a sequence of operations, first element first. -/
def runOps : List Op → Kernel → Kernel
  | [], k => k
  | o :: os, k => runOps os (applyOp o k)

/-- The text `needle` occurs inside the text `hay`. -/
def containsText (hay needle : String) : Prop :=
  ∃ pre post : List Char, hay.data = pre ++ needle.data ++ post

/-! ## The module loader -/

/-- Modelled from the spec: where a module stands with respect to the host loader.
`loadFailed` is the outcome the comment in `init_module` describes: a non-zero
result means the module cannot be loaded. -/
inductive Lifecycle where
  | unloaded | loaded | loadFailed
  deriving DecidableEq, Repr

/-- Modelled from the spec: the host loader's view, the kernel state together with
the lifecycle state of the module. -/
structure Host where
  kernel : Kernel
  state : Lifecycle
  deriving DecidableEq, Repr

/-- Modelled from the spec: loading by the host.  It runs `init_module`; the module
becomes loaded when the result is 0 and the load fails otherwise. -/
def insmod (h : Host) : Host :=
  let r := init_module h.kernel
  if r.1 = 0 then { kernel := r.2, state := Lifecycle.loaded }
  else { kernel := r.2, state := Lifecycle.loadFailed }

/-- Modelled from the spec: unloading by the host.  It runs `cleanup_module`, whose
void result cannot refuse the unload. -/
def rmmod (h : Host) : Host :=
  { kernel := (cleanup_module h.kernel).2, state := Lifecycle.unloaded }

/-- Modelled from the spec: one transition of the lifecycle.  An unloaded module may
be loaded, a loaded module may be unloaded. -/
inductive Step : Host → Host → Prop where
  | load (h : Host) : h.state = Lifecycle.unloaded → Step h (insmod h)
  | unload (h : Host) : h.state = Lifecycle.loaded → Step h (rmmod h)

/-- The hosts reachable from `h₀` by any number of transitions. -/
inductive Reachable (h₀ : Host) : Host → Prop where
  | start : Reachable h₀ h₀
  | next {a b : Host} : Reachable h₀ a → Step a b → Reachable h₀ b

/-! ## Basic facts about the two entry points -/

/-- The severity prefix of `KERN_INFO` is recognised and removed, whatever follows. -/
theorem printk_parse_KERN_INFO (body : List Char) :
    printk_parse (KERN_INFO.data ++ body) = (Severity.info, body) := rfl

/-- A body without a percent sign is emitted unchanged, whatever the arguments. -/
theorem vformat_verbatim (body : List Char) (args : List String) (h : '%' ∉ body) :
    vformat body args = body := by
  induction body using List.rec with
  | nil => simp [vformat]
  | cons c rest ih =>
    have hc : c ≠ '%' := fun e => h (by simp [e])
    have hrest : '%' ∉ rest := fun m => h (List.mem_cons_of_mem _ m)
    cases rest with
    | nil => simp [vformat]
    | cons d more => simp [vformat, hc, ih hrest]

/-- A `printk` of `KERN_INFO` followed by a body without a percent sign appends
that body at severity info, whatever the arguments. -/
theorem printk_KERN_INFO_verbatim (body : String) (args : List String) (k : Kernel)
    (h : '%' ∉ body.data) :
    printk (KERN_INFO ++ body) args k =
      ((body.length : Int),
        { log := k.log ++ [LogRecord.mk Severity.info body], modinfo := k.modinfo }) := by
  have hd : (KERN_INFO ++ body).data = KERN_INFO.data ++ body.data := rfl
  simp only [printk, hd, printk_parse_KERN_INFO, vformat_verbatim body.data args h]
  rfl

/-- What `init_module` computes: result 0 and one appended record. -/
theorem init_module_eq (k : Kernel) :
    init_module k =
      (0, { log := k.log ++ [{ level := Severity.info, text := "Hello world 1.\n" }],
            modinfo := k.modinfo }) := rfl

/-- What `cleanup_module` computes: one appended record. -/
theorem cleanup_module_eq (k : Kernel) :
    cleanup_module k =
      ((), { log := k.log ++ [{ level := Severity.info, text := "Goodbye world 1.\n" }],
             modinfo := k.modinfo }) := rfl

/-- One operation leaves the metadata strings as they were. -/
theorem applyOp_modinfo (o : Op) (k : Kernel) : (applyOp o k).modinfo = k.modinfo := by
  cases o <;> rfl

/-- A sequence of operations leaves the metadata strings as they were. -/
theorem runOps_modinfo (ops : List Op) (k : Kernel) : (runOps ops k).modinfo = k.modinfo := by
  induction ops generalizing k with
  | nil => rfl
  | cons o os ih => rw [runOps, ih, applyOp_modinfo]

/-- Loading an unloaded module makes it loaded. -/
theorem insmod_state (h : Host) : (insmod h).state = Lifecycle.loaded := by
  simp [insmod, init_module_eq]

/-- Unloading makes the module unloaded. -/
theorem rmmod_state (h : Host) : (rmmod h).state = Lifecycle.unloaded := rfl

/-- Every transition is one of the two lifecycle moves. -/
theorem step_states {a b : Host} (st : Step a b) :
    (a.state = Lifecycle.unloaded ∧ b.state = Lifecycle.loaded) ∨
      (a.state = Lifecycle.loaded ∧ b.state = Lifecycle.unloaded) := by
  cases st with
  | load hu => exact Or.inl ⟨hu, insmod_state a⟩
  | unload hl => exact Or.inr ⟨hl, rmmod_state a⟩

/-- From an unloaded start only the unloaded and loaded states are reached. -/
theorem reachable_states {h₀ h : Host} (h₀u : h₀.state = Lifecycle.unloaded)
    (r : Reachable h₀ h) : h.state = Lifecycle.unloaded ∨ h.state = Lifecycle.loaded := by
  induction r with
  | start => exact Or.inl h₀u
  | next _ st _ =>
    rcases step_states st with ⟨_, hb⟩ | ⟨_, hb⟩
    · exact Or.inr hb
    · exact Or.inl hb

/-- Calling `init_module` `n` times in a row appends `n` copies of its record. -/
theorem runOps_replicate_load (n : Nat) (k : Kernel) :
    (runOps (List.replicate n Op.load) k).log =
      k.log ++ List.replicate n { level := Severity.info, text := "Hello world 1.\n" } := by
  induction n generalizing k with
  | zero => simp [runOps]
  | succ n ih =>
    rw [List.replicate_succ, runOps, ih, List.replicate_succ]
    simp [applyOp, init_module_eq]

/-! ## The claims -/

/-- C1: for every kernel state, hence for every prior content of the log,
`init_module` returns 0, and no state makes it return a non-zero value. -/
theorem C1_init_module_returns_success :
    (∀ k : Kernel, (init_module k).1 = 0) ∧ ¬ ∃ k : Kernel, (init_module k).1 ≠ 0 :=
  ⟨fun _ => rfl, fun ⟨_, hk⟩ => hk rfl⟩

/-- C2: for every prior log, the log in the state `init_module` returns is the
prior log followed by exactly one record, and the text of that record contains
"Hello world 1.". -/
theorem C2_init_module_emits_hello (k : Kernel) :
    ∃ line : LogRecord,
      (init_module k).2.log = k.log ++ [line] ∧
      (init_module k).2.log.length = k.log.length + 1 ∧
      containsText line.text "Hello world 1." := by
  refine ⟨{ level := Severity.info, text := "Hello world 1.\n" }, rfl, ?_, [], ['\n'], by decide⟩
  simp [init_module_eq]

/-- C3: for every prior log, the log in the state `cleanup_module` returns is the
prior log followed by exactly one record, the text of that record contains
"Goodbye world 1.", and the value returned is the unit value: the result type
has no failure case. -/
theorem C3_cleanup_module_emits_goodbye (k : Kernel) :
    (∃ line : LogRecord,
      (cleanup_module k).2.log = k.log ++ [line] ∧
      (cleanup_module k).2.log.length = k.log.length + 1 ∧
      containsText line.text "Goodbye world 1.") ∧
    (cleanup_module k).1 = () := by
  refine ⟨⟨{ level := Severity.info, text := "Goodbye world 1.\n" }, rfl, ?_, [], ['\n'],
    by decide⟩, rfl⟩
  simp [cleanup_module_eq]

/-- C4: `init_module` followed by `cleanup_module`, started on an empty log, gives
a log of exactly two records, the "Hello world 1." record and then the
"Goodbye world 1." record; the metadata strings are as before and the result of
`init_module` is 0. -/
theorem C4_load_then_unload (m : Modinfo) :
    (init_module { log := [], modinfo := m }).1 = 0 ∧
    (cleanup_module (init_module { log := [], modinfo := m }).2).2 =
      { log := [{ level := Severity.info, text := "Hello world 1.\n" },
                { level := Severity.info, text := "Goodbye world 1.\n" }],
        modinfo := m } ∧
    (cleanup_module (init_module { log := [], modinfo := m }).2).2.log.length = 2 ∧
    containsText "Hello world 1.\n" "Hello world 1." ∧
    containsText "Goodbye world 1.\n" "Goodbye world 1." :=
  ⟨rfl, rfl, rfl, ⟨[], ['\n'], by decide⟩, ⟨[], ['\n'], by decide⟩⟩

/-- C5: the four metadata strings of the module are "GPL", "Bharath Reddy",
"A simple hello world module" and "0.01", and `init_module`, `cleanup_module`
and every sequence of the two leave the metadata strings of the state unchanged. -/
theorem C5_metadata_fixed :
    fs_driver_modinfo.license = "GPL" ∧
    fs_driver_modinfo.author = "Bharath Reddy" ∧
    fs_driver_modinfo.description = "A simple hello world module" ∧
    fs_driver_modinfo.version = "0.01" ∧
    (∀ k : Kernel, (init_module k).2.modinfo = k.modinfo) ∧
    (∀ k : Kernel, (cleanup_module k).2.modinfo = k.modinfo) ∧
    (∀ (ops : List Op) (k : Kernel), (runOps ops k).modinfo = k.modinfo) :=
  ⟨rfl, rfl, rfl, rfl, fun _ => rfl, fun _ => rfl, runOps_modinfo⟩

/-- C6: the record `init_module` appends is exactly severity info with text
"Hello world 1.\n", the record `cleanup_module` appends is exactly severity info
with text "Goodbye world 1.\n"; neither text has a percent sign, and the two
`printk` calls emit these same records whatever arguments accompany them. -/
theorem C6_records_info_untemplated (args : List String) (k : Kernel) :
    (init_module k).2.log =
      k.log ++ [{ level := Severity.info, text := "Hello world 1.\n" }] ∧
    (cleanup_module k).2.log =
      k.log ++ [{ level := Severity.info, text := "Goodbye world 1.\n" }] ∧
    (printk (KERN_INFO ++ "Hello world 1.\n") args k).2.log =
      k.log ++ [{ level := Severity.info, text := "Hello world 1.\n" }] ∧
    (printk (KERN_INFO ++ "Goodbye world 1.\n") args k).2.log =
      k.log ++ [{ level := Severity.info, text := "Goodbye world 1.\n" }] ∧
    '%' ∉ (printk_parse (KERN_INFO ++ "Hello world 1.\n").data).2 ∧
    '%' ∉ (printk_parse (KERN_INFO ++ "Goodbye world 1.\n").data).2 := by
  exact ⟨rfl, rfl,
    congrArg (fun p => p.2.log) (printk_KERN_INFO_verbatim "Hello world 1.\n" args k (by decide)),
    congrArg (fun p => p.2.log) (printk_KERN_INFO_verbatim "Goodbye world 1.\n" args k (by decide)),
    by decide, by decide⟩

/-- C7: started unloaded, on any kernel state, the lifecycle states that can be
reached are exactly unloaded and loaded; every transition goes from unloaded to
loaded or from loaded to unloaded; the failed-load state is never reached. -/
theorem C7_lifecycle_two_states (k : Kernel) :
    (∀ s : Lifecycle,
      (∃ h : Host, Reachable { kernel := k, state := Lifecycle.unloaded } h ∧ h.state = s) ↔
        (s = Lifecycle.unloaded ∨ s = Lifecycle.loaded)) ∧
    (∀ a b : Host, Step a b →
      (a.state = Lifecycle.unloaded ∧ b.state = Lifecycle.loaded) ∨
        (a.state = Lifecycle.loaded ∧ b.state = Lifecycle.unloaded)) ∧
    ¬ ∃ h : Host, Reachable { kernel := k, state := Lifecycle.unloaded } h ∧
        h.state = Lifecycle.loadFailed := by
  refine ⟨fun s => ⟨?_, ?_⟩, fun _ _ st => step_states st, ?_⟩
  · rintro ⟨h, r, rfl⟩
    exact reachable_states rfl r
  · rintro (rfl | rfl)
    · exact ⟨_, Reachable.start, rfl⟩
    · exact ⟨_, Reachable.next Reachable.start (Step.load _ rfl), insmod_state _⟩
  · rintro ⟨h, r, hf⟩
    rcases reachable_states rfl r with hs | hs <;> rw [hf] at hs <;> cases hs

/-- C8: for every kernel state, each entry point returns the prior log with one
record appended, the prior log being an unchanged prefix; the appended record and
the result of `init_module` do not depend on the state; `cleanup_module` appends
the same record after `init_module` as without it; and `n` calls of `init_module`
append `n` copies of its record. -/
theorem C8_append_only_state_independent (k k₂ : Kernel) (n : Nat) :
    (init_module k).2.log =
      k.log ++ [{ level := Severity.info, text := "Hello world 1.\n" }] ∧
    (cleanup_module k).2.log =
      k.log ++ [{ level := Severity.info, text := "Goodbye world 1.\n" }] ∧
    (init_module k).2.log.take k.log.length = k.log ∧
    (cleanup_module k).2.log.take k.log.length = k.log ∧
    (init_module k).2.log.length = k.log.length + 1 ∧
    (cleanup_module k).2.log.length = k.log.length + 1 ∧
    (init_module k).2.log.drop k.log.length = (init_module k₂).2.log.drop k₂.log.length ∧
    (cleanup_module k).2.log.drop k.log.length =
      (cleanup_module k₂).2.log.drop k₂.log.length ∧
    (init_module k).1 = (init_module k₂).1 ∧
    (cleanup_module (init_module k).2).2.log =
      (init_module k).2.log ++ [{ level := Severity.info, text := "Goodbye world 1.\n" }] ∧
    (runOps (List.replicate n Op.load) k).log =
      k.log ++ List.replicate n { level := Severity.info, text := "Hello world 1.\n" } := by
  refine ⟨rfl, rfl, ?_, ?_, ?_, ?_, ?_, ?_, rfl, rfl, runOps_replicate_load n k⟩ <;>
    simp [init_module_eq, cleanup_module_eq]

end FsDriver
